import Mathlib

/-!
Verification development for the resume-evaluator pipeline.

Shallow embedding of the core pipeline: the Pydantic data model
(`schemas.py`), the structured generation client with its retry policy
(`llm.py`), the fit-evaluation stage (`agents/evaluate_fit.py`), the PDF text
extractor (`parsers/pdf.py`), and the LangGraph orchestrator
(`pipeline/graph.py`).

External collaborators (the OpenAI transport, the pypdf page reader) are
modelled as oracles: a function giving the outcome of each transport
invocation, and the list of per-page extraction outcomes the reader yields.
Python `float` fields (`gpa`, `years_experience`) are modelled as `Rat`; no
claim depends on their arithmetic. Strings carried inside error messages keep
the source's literal prefixes.
-/

namespace ResumeEvaluator

/-- Education entry model (schemas.py `Education`). -/
structure Education where
  institution : String
  degree : String
  field_of_study : Option String
  graduation_year : Option Int
  gpa : Option Rat
deriving Repr, DecidableEq

/-- Work role/position model (schemas.py `Role`). -/
structure Role where
  title : String
  company : String
  start_date : Option String
  end_date : Option String
  location : Option String
  description : String
  achievements : Option (List String)
deriving Repr, DecidableEq

/-- Project entry model (schemas.py `Project`). -/
structure Project where
  name : String
  description : String
  technologies : Option (List String)
  url : Option String
  role : Option String
deriving Repr, DecidableEq

/-- Structured candidate profile (schemas.py `CandidateProfile`). -/
structure CandidateProfile where
  name : Option String
  email : Option String
  phone : Option String
  location : Option String
  years_experience : Option Rat
  summary : String
  skills_primary : List String
  skills_secondary : List String
  certifications : Option (List String)
  education : List Education
  work_experience : List Role
  projects : List Project
  keywords : List String
deriving Repr, DecidableEq

/-- Structured job description (schemas.py `JobDescription`). -/
structure JobDescription where
  title : String
  company : Option String
  location : Option String
  summary : String
  responsibilities : List String
  required_skills : List String
  preferred_skills : List String
  qualifications : List String
  seniority : Option String
  keywords : List String
deriving Repr, DecidableEq

/-- Validated fit evaluation (schemas.py `FitEvaluation`); `fit_score` is
constrained by `Field(..., ge=0, le=100)` at validation time. -/
structure FitEvaluation where
  fit_score : Int
  is_fit : Bool
  fit_summary : String
  strengths : List String
  gaps : List String
  recommendations : List String
  missing_keywords : List String
  risk_flags : List String
deriving Repr, DecidableEq

/-- Complete evaluation result (schemas.py `EvaluationResult`). -/
structure EvaluationResult where
  candidate_profile : CandidateProfile
  job_description : JobDescription
  evaluation : FitEvaluation
deriving Repr, DecidableEq

/-- Raw JSON payload shaped like `FitEvaluation` as parsed from the model
response, before Pydantic validation has checked the `fit_score` range.
Required-field presence and types are structural here; the numeric range
constraint is what `model_validate` still has to check. -/
structure FitEvaluationJson where
  fit_score : Int
  is_fit : Bool
  fit_summary : String
  strengths : List String
  gaps : List String
  recommendations : List String
  missing_keywords : List String
  risk_flags : List String
deriving Repr, DecidableEq

/-- Pydantic `FitEvaluation.model_validate` on an already-parsed JSON payload:
accepts iff `0 <= fit_score <= 100` (schemas.py, `ge=0, le=100`), carrying the
payload's values through unchanged — Pydantic never clamps out-of-range
values, it raises a `ValidationError`. -/
def FitEvaluation.model_validate (j : FitEvaluationJson) : Except String FitEvaluation :=
  if j.fit_score < 0 then
    .error "fit_score: Input should be greater than or equal to 0"
  else if 100 < j.fit_score then
    .error "fit_score: Input should be less than or equal to 100"
  else
    .ok { fit_score := j.fit_score, is_fit := j.is_fit, fit_summary := j.fit_summary,
          strengths := j.strengths, gaps := j.gaps, recommendations := j.recommendations,
          missing_keywords := j.missing_keywords, risk_flags := j.risk_flags }

/-! ### Structured generation client (llm.py) -/

/-- Content of `response.choices[0].message.content` classified at the
granularity `_call_api` inspects it: falsy (None or empty string), a string
that `json.loads` rejects (carrying the decode-error text), or a string that
parses to a JSON payload of type `J`. -/
inductive ContentModel (J : Type) where
  | emptyContent : ContentModel J
  | badJson (err : String) : ContentModel J
  | goodJson (data : J) : ContentModel J
deriving Repr, DecidableEq

/-- Outcome of one invocation of `client.chat.completions.create`: either the
client raises an exception that is not a `ValueError` (auth failure, network
failure, service error — the transport/auth class), or it returns a response
whose message content is classified by `ContentModel`. -/
inductive TransportResult (J : Type) where
  | apiError (msg : String) : TransportResult J
  | response (content : ContentModel J) : TransportResult J
deriving Repr, DecidableEq

/-- Result of one execution of `_call_api`: either the validated value is
returned, or a `ValueError` with the given message is raised.  Every failure
path of `_call_api` raises `ValueError` (the outer `except Exception` clause
wraps anything else), so this is exhaustive. -/
inductive AttemptResult (α : Type) where
  | success (value : α) : AttemptResult α
  | valueError (msg : String) : AttemptResult α
deriving Repr, DecidableEq

/-- One execution of the body of `_call_api` (llm.py), given the transport
outcome for this attempt and the Pydantic validator of the target schema:
- a non-`ValueError` exception from `create()` is caught by the outer
  `except Exception` clause and re-raised as `ValueError("OpenAI API error: ...")`;
- falsy content raises `ValueError("Empty response from OpenAI API")`;
- a `json.JSONDecodeError` is re-raised as
  `ValueError("Failed to parse JSON response: ...")`;
- a Pydantic `ValidationError` is re-raised as
  `ValueError("Pydantic validation failed: ...")`;
- otherwise the validated model instance is returned. -/
def callApiOnce {J α : Type} (validate : J → Except String α) :
    TransportResult J → AttemptResult α
  | .apiError msg => .valueError ("OpenAI API error: " ++ msg)
  | .response .emptyContent => .valueError "Empty response from OpenAI API"
  | .response (.badJson err) => .valueError ("Failed to parse JSON response: " ++ err)
  | .response (.goodJson data) =>
      match validate data with
      | .ok v => .success v
      | .error err => .valueError ("Pydantic validation failed: " ++ err)

/-- Wait (in seconds) computed by tenacity `wait_exponential(multiplier, min,
max)` after failed attempt number `attempt` (attempts are numbered from 1):
`max(min, min(max, multiplier * 2 ^ (attempt - 1)))`.  Modelled from the
tenacity library the source configures in llm.py. -/
def waitExponential (multiplier mn mx attempt : Nat) : Nat :=
  Nat.max mn (Nat.min mx (multiplier * 2 ^ (attempt - 1)))

/-- Backoff schedule configured in llm.py:
`wait_exponential(multiplier=1, min=2, max=10)`. -/
def backoffWait (attempt : Nat) : Nat :=
  waitExponential 1 2 10 attempt

/-- Aggregate outcome of a `structured_completion` call: the returned value or
the final `ValueError` message (carried to the caller inside tenacity's
`RetryError` once attempts are exhausted), the number of transport attempts
actually made, and the backoff waits slept between consecutive attempts. -/
structure CallOutcome (α : Type) where
  result : Except String α
  attempts : Nat
  waits : List Nat
deriving Repr

/-- Tenacity retry loop around `_call_api` as configured in llm.py:
`retry_if_exception_type((ValueError, json.JSONDecodeError))` — which covers
every exception `_call_api` can raise — with `stop_after_attempt(3)` and
`wait_exponential(multiplier=1, min=2, max=10)`.  `outcome n` is the result of
the `n`-th execution of `_call_api`; `attempt` is the current attempt number
and `remaining` the number of further attempts the stop condition still
allows. -/
def retryCall {α : Type} (outcome : Nat → AttemptResult α) :
    Nat → Nat → CallOutcome α
  | attempt, remaining =>
    match outcome attempt with
    | .success v => { result := .ok v, attempts := attempt, waits := [] }
    | .valueError msg =>
      match remaining with
      | 0 => { result := .error msg, attempts := attempt, waits := [] }
      | r + 1 =>
        let rest := retryCall outcome (attempt + 1) r
        { result := rest.result, attempts := rest.attempts,
          waits := backoffWait attempt :: rest.waits }

/-- The structured generation client `structured_completion` (llm.py): builds
the schema-enhanced prompt (a string, absorbed into the transport oracle) and
runs `_call_api` under the tenacity policy — first attempt numbered 1, at most
3 attempts total.  `transport n` is the outcome of the `n`-th invocation of
`client.chat.completions.create`; `validate` is `schema_model.model_validate`. -/
def structured_completion {J α : Type} (validate : J → Except String α)
    (transport : Nat → TransportResult J) : CallOutcome α :=
  retryCall (fun n => callApiOnce validate (transport n)) 1 2

/-! ### Fit evaluation stage (agents/evaluate_fit.py) -/

/-- The fit-evaluation stage `evaluate_fit` (agents/evaluate_fit.py): builds
the recruiter prompts from the two input records (strings, absorbed into the
transport oracle), calls `structured_completion` with the `FitEvaluation`
schema, then unconditionally recomputes
`evaluation.is_fit = evaluation.fit_score >= 70` on the validated result
before returning it. -/
def evaluate_fit (transport : Nat → TransportResult FitEvaluationJson)
    (candidate_profile : CandidateProfile) (job_description : JobDescription) :
    Except String FitEvaluation :=
  match (structured_completion FitEvaluation.model_validate transport).result with
  | .error e => .error e
  | .ok evaluation => .ok { evaluation with is_fit := decide (70 ≤ evaluation.fit_score) }

/-! ### PDF text extraction (parsers/pdf.py) -/

/-- Outcome of `page.extract_text()` for one page of the document: the call
raised an exception (the page is unreadable), or it returned a string
(possibly empty). -/
inductive PageOutcome where
  | extractFailed (err : String) : PageOutcome
  | extracted (text : String) : PageOutcome
deriving Repr, DecidableEq

/-- The text a single page contributes to `text_parts`: nothing when
extraction raised or returned falsy (empty) text, otherwise the extracted
text. -/
def pageYield : PageOutcome → Option String
  | .extractFailed _ => none
  | .extracted t => if t = "" then none else some t

/-- The `text_parts` accumulation loop of `extract_text_from_pdf`
(parsers/pdf.py): iterate over the pages in order; a page whose extraction
raised is skipped (`continue`), a page whose text is falsy is skipped, any
other page appends its text. -/
def collectPageTexts : List PageOutcome → List String
  | [] => []
  | .extractFailed _ :: rest => collectPageTexts rest
  | .extracted t :: rest =>
      if t = "" then collectPageTexts rest else t :: collectPageTexts rest

/-- The function `extract_text_from_pdf` (parsers/pdf.py), over the outcome of
opening the document with pypdf (`readerResult`): an error when `PdfReader`
raised, else the page loop runs; if no page yielded text the inner
`ValueError("No text could be extracted from the PDF")` is raised and — being
raised inside the outer `try` — re-wrapped by the `except Exception` clause as
`ValueError("Unexpected error parsing PDF: ...")`; otherwise the collected
page texts are joined with a blank-line separator. -/
def extract_text_from_pdf (readerResult : Except String (List PageOutcome)) :
    Except String String :=
  match readerResult with
  | .error e => .error ("Failed to read PDF: " ++ e)
  | .ok pages =>
      let text_parts := collectPageTexts pages
      if text_parts.isEmpty then
        .error "Unexpected error parsing PDF: No text could be extracted from the PDF"
      else
        .ok (String.intercalate "\n\n" text_parts)

/-! ### Pipeline orchestrator (pipeline/graph.py) -/

/-- Bytes of the uploaded PDF file, modelled as a list of byte values; only
Python truthiness (`b"" ` is falsy) and the page outcomes the pypdf reader
derives from them matter to the pipeline. -/
abbrev PdfBytes := List Nat

/-- State for the evaluation pipeline (graph.py `EvaluationState`). -/
structure EvaluationState where
  resume_pdf_bytes : Option PdfBytes
  resume_text : Option String
  job_description_text : String
  candidate_profile : Option CandidateProfile
  job_description : Option JobDescription
  evaluation : Option FitEvaluation
deriving Repr, DecidableEq

/-- Python truthiness of an `str | None` value: `None` and `""` are falsy. -/
def truthyStr : Option String → Bool
  | none => false
  | some s => !(s == "")

/-- Python truthiness of a `bytes | None` value: `None` and `b""` are falsy. -/
def truthyBytes : Option PdfBytes → Bool
  | none => false
  | some b => !b.isEmpty

/-- External collaborators of one pipeline run: the pypdf reader (mapping the
uploaded bytes to the page-level extraction outcomes, or an open error), and
the generation behaviour backing each of the three LLM stages.  `extract_profile`
and `extract_job` summarise the whole `structured_completion` call of their
stage (agents/extract_profile.py, agents/extract_job_description.py);
`fit_transport` is the per-attempt transport oracle of the fit stage, which is
modelled down to `evaluate_fit`. -/
structure Oracles where
  readPdf : PdfBytes → Except String (List PageOutcome)
  extract_profile : String → Except String CandidateProfile
  extract_job : String → Except String JobDescription
  fit_transport : Nat → TransportResult FitEvaluationJson

/-- Node `parse_resume_node` (graph.py): pass through when `resume_text` is
truthy; otherwise require truthy `resume_pdf_bytes` and populate
`resume_text` from the PDF extractor. -/
def parse_resume_node (readPdf : PdfBytes → Except String (List PageOutcome))
    (state : EvaluationState) : Except String EvaluationState :=
  if truthyStr state.resume_text then
    .ok state
  else if !truthyBytes state.resume_pdf_bytes then
    .error "Either resume_text or resume_pdf_bytes must be provided"
  else
    match state.resume_pdf_bytes with
    | none => .error "Either resume_text or resume_pdf_bytes must be provided"
    | some bytes =>
      match extract_text_from_pdf (readPdf bytes) with
      | .error e => .error e
      | .ok resume_text => .ok { state with resume_text := some resume_text }

/-- Node `profile_node` (graph.py): require truthy `resume_text`, then invoke
the candidate-profile extraction stage and store its result. -/
def profile_node (extract_profile : String → Except String CandidateProfile)
    (state : EvaluationState) : Except String EvaluationState :=
  match state.resume_text with
  | none => .error "resume_text is required for profile extraction"
  | some t =>
    if t = "" then .error "resume_text is required for profile extraction"
    else
      match extract_profile t with
      | .error e => .error e
      | .ok cp => .ok { state with candidate_profile := some cp }

/-- Node `job_node` (graph.py): require truthy `job_description_text`, then
invoke the job-description extraction stage and store its result. -/
def job_node (extract_job : String → Except String JobDescription)
    (state : EvaluationState) : Except String EvaluationState :=
  if state.job_description_text = "" then
    .error "job_description_text is required"
  else
    match extract_job state.job_description_text with
    | .error e => .error e
    | .ok jd => .ok { state with job_description := some jd }

/-- Node `evaluate_node` (graph.py): require both `candidate_profile` and
`job_description` present (Pydantic model instances are always truthy), then
invoke `evaluate_fit` and store its result. -/
def evaluate_node (fit_transport : Nat → TransportResult FitEvaluationJson)
    (state : EvaluationState) : Except String EvaluationState :=
  match state.candidate_profile, state.job_description with
  | some cp, some jd =>
      match evaluate_fit fit_transport cp jd with
      | .error e => .error e
      | .ok ev => .ok { state with evaluation := some ev }
  | _, _ =>
      .error "Both candidate_profile and job_description are required for evaluation"

/-- One of the four pipeline stages of the compiled LangGraph. -/
inductive Stage where
  | parse_resume : Stage
  | profile : Stage
  | job : Stage
  | evaluate : Stage
deriving Repr, DecidableEq

/-- Sequential execution of a list of graph nodes over the shared state, as
the compiled linear LangGraph performs it: each node that is entered is
recorded in the trace; the first raised exception aborts the run. -/
def runSeq : List (Stage × (EvaluationState → Except String EvaluationState)) →
    EvaluationState → Except String EvaluationState × List Stage
  | [], state => (.ok state, [])
  | (tag, node) :: rest, state =>
    match node state with
    | .error e => (.error e, [tag])
    | .ok state2 =>
      let (r, trace) := runSeq rest state2
      (r, tag :: trace)

/-- The node sequence wired by `build_evaluation_graph` (graph.py):
parse_resume → profile → job → evaluate. -/
def pipelineNodes (o : Oracles) :
    List (Stage × (EvaluationState → Except String EvaluationState)) :=
  [(Stage.parse_resume, parse_resume_node o.readPdf),
   (Stage.profile, profile_node o.extract_profile),
   (Stage.job, job_node o.extract_job),
   (Stage.evaluate, evaluate_node o.fit_transport)]

/-- Entry point `run_evaluation` (graph.py): check the two input
preconditions, build the fresh initial state, invoke the graph, then perform
the terminal completeness check and assemble the `EvaluationResult`.  The
returned trace lists the pipeline stages that were entered. -/
def run_evaluation (o : Oracles) (resume_pdf_bytes : Option PdfBytes)
    (resume_text : Option String) (job_description_text : String) :
    Except String EvaluationResult × List Stage :=
  if job_description_text = "" then
    (.error "job_description_text is required", [])
  else if !truthyBytes resume_pdf_bytes && !truthyStr resume_text then
    (.error "Either resume_pdf_bytes or resume_text must be provided", [])
  else
    let initial_state : EvaluationState :=
      { resume_pdf_bytes := resume_pdf_bytes, resume_text := resume_text,
        job_description_text := job_description_text,
        candidate_profile := none, job_description := none, evaluation := none }
    let (final_state, trace) := runSeq (pipelineNodes o) initial_state
    match final_state with
    | .error e => (.error e, trace)
    | .ok s =>
      match s.candidate_profile, s.job_description, s.evaluation with
      | some cp, some jd, some ev =>
        (.ok { candidate_profile := cp, job_description := jd, evaluation := ev }, trace)
      | _, _, _ =>
        (.error "Pipeline failed to produce complete evaluation", trace)

/-! ### Concrete sample inputs used to instantiate the theorems -/

/-- Sample candidate profile. -/
def sampleProfile : CandidateProfile :=
  { name := some "Ada Lovelace", email := none, phone := none, location := none,
    years_experience := none, summary := "Engineer with analytical focus",
    skills_primary := ["python"], skills_secondary := [], certifications := none,
    education := [], work_experience := [], projects := [], keywords := [] }

/-- Sample job description. -/
def sampleJob : JobDescription :=
  { title := "Software Engineer", company := none, location := none,
    summary := "Build data tooling", responsibilities := [], required_skills := [],
    preferred_skills := [], qualifications := [], seniority := none, keywords := [] }

/-- Raw generated payload with fit_score 75 but is_fit reported false — an
inconsistent model-produced flag. -/
def inconsistentJson : FitEvaluationJson :=
  { fit_score := 75, is_fit := false, fit_summary := "good match",
    strengths := [], gaps := [], recommendations := [], missing_keywords := [],
    risk_flags := [] }

/-- The FitEvaluation that `evaluate_fit` produces from `inconsistentJson`
after recomputing the flag. -/
def correctedFit75 : FitEvaluation :=
  { fit_score := 75, is_fit := true, fit_summary := "good match",
    strengths := [], gaps := [], recommendations := [], missing_keywords := [],
    risk_flags := [] }

/-- Raw generated payload that validates cleanly. -/
def goodJson80 : FitEvaluationJson :=
  { fit_score := 80, is_fit := true, fit_summary := "solid fit",
    strengths := [], gaps := [], recommendations := [], missing_keywords := [],
    risk_flags := [] }

/-- The validated form of `goodJson80`. -/
def fit80 : FitEvaluation :=
  { fit_score := 80, is_fit := true, fit_summary := "solid fit",
    strengths := [], gaps := [], recommendations := [], missing_keywords := [],
    risk_flags := [] }

/-- Raw generated payload whose score 150 violates the [0,100] constraint. -/
def outOfRangeJson : FitEvaluationJson :=
  { fit_score := 150, is_fit := true, fit_summary := "impossible",
    strengths := [], gaps := [], recommendations := [], missing_keywords := [],
    risk_flags := [] }

/-- Transport that always returns the inconsistent payload. -/
def transportInconsistent : Nat → TransportResult FitEvaluationJson :=
  fun _ => .response (.goodJson inconsistentJson)

/-- Transport raising a generic (non-ValueError) connection error on the first
attempt, then answering with a valid payload. -/
def transportErrThenOk : Nat → TransportResult FitEvaluationJson
  | 1 => .apiError "Connection error"
  | _ => .response (.goodJson goodJson80)

/-- Transport returning malformed JSON on exactly the first two attempts and
a valid schema-conforming payload on the third. -/
def transportBadBadGood : Nat → TransportResult FitEvaluationJson
  | 1 => .response (.badJson "Expecting value")
  | 2 => .response (.badJson "Expecting value")
  | _ => .response (.goodJson goodJson80)

/-- Transport returning malformed JSON on every attempt, with a
distinguishable message on the third one. -/
def transportAllBad : Nat → TransportResult FitEvaluationJson
  | 3 => .response (.badJson "third failure")
  | _ => .response (.badJson "early failure")

/-- Transport returning falsy message content on the first attempt, then a
valid payload. -/
def transportEmptyThenOk : Nat → TransportResult FitEvaluationJson
  | 1 => .response .emptyContent
  | _ => .response (.goodJson goodJson80)

/-- Transport returning the out-of-range payload on the first attempt, then a
valid one. -/
def transportRange : Nat → TransportResult FitEvaluationJson
  | 1 => .response (.goodJson outOfRangeJson)
  | _ => .response (.goodJson goodJson80)

/-- PDF-reader oracle for scenarios in which the extractor must not be
reached: reading reports an error, so any dependence on it is visible. -/
def readPdfUnused : PdfBytes → Except String (List PageOutcome) :=
  fun _ => .error "reader invoked"

/-- Page outcomes with one unreadable page, one empty page and two text
pages. -/
def samplePages : List PageOutcome :=
  [.extracted "Page one", .extractFailed "damaged stream", .extracted "",
   .extracted "Page two"]

/-- Page outcomes in which no page yields text. -/
def emptyPages : List PageOutcome :=
  [.extractFailed "damaged stream", .extracted ""]

/-- Oracles with a PDF whose pages yield no text and benign generation
stages. -/
def sampleOracles : Oracles :=
  { readPdf := fun _ => .ok emptyPages,
    extract_profile := fun _ => .ok sampleProfile,
    extract_job := fun _ => .ok sampleJob,
    fit_transport := fun _ => .response (.goodJson goodJson80) }

/-- Pipeline state that already carries resume text (and also PDF bytes). -/
def sampleStateWithText : EvaluationState :=
  { resume_pdf_bytes := some [37, 80, 68, 70], resume_text := some "Ada resume",
    job_description_text := "Job text", candidate_profile := none,
    job_description := none, evaluation := none }

/-- Pipeline state whose resume_text is the empty string while PDF bytes are
present. -/
def sampleStateEmptyText : EvaluationState :=
  { resume_pdf_bytes := some [37, 80, 68, 70], resume_text := some "",
    job_description_text := "Job text", candidate_profile := none,
    job_description := none, evaluation := none }

/-- Pipeline state whose resume_text is the empty string and whose PDF bytes
are absent. -/
def sampleStateNoInputs : EvaluationState :=
  { resume_pdf_bytes := none, resume_text := some "",
    job_description_text := "Job text", candidate_profile := none,
    job_description := none, evaluation := none }

/-! ### Helper lemmas about the retry loop -/

/-- The attempt number a retry loop stops at never exceeds the current
attempt number plus the remaining budget. -/
theorem retryCall_attempts_le {α : Type} (outcome : Nat → AttemptResult α)
    (attempt remaining : Nat) :
    (retryCall outcome attempt remaining).attempts ≤ attempt + remaining := by
  induction remaining generalizing attempt with
  | zero =>
    unfold retryCall
    cases outcome attempt <;> simp
  | succ r ih =>
    unfold retryCall
    cases outcome attempt with
    | success v => simp
    | valueError msg =>
      have h := ih (attempt + 1)
      simpa using Nat.le_trans h (by omega)

/-- The attempt number a retry loop stops at is at least the attempt number it
starts from. -/
theorem retryCall_attempts_ge {α : Type} (outcome : Nat → AttemptResult α)
    (attempt remaining : Nat) :
    attempt ≤ (retryCall outcome attempt remaining).attempts := by
  induction remaining generalizing attempt with
  | zero =>
    unfold retryCall
    cases outcome attempt <;> simp
  | succ r ih =>
    unfold retryCall
    cases outcome attempt with
    | success v => simp
    | valueError msg =>
      have h := ih (attempt + 1)
      simpa using Nat.le_trans (by omega) h

/-- A failing first attempt forces the client to make at least one further
transport invocation. -/
theorem structured_attempts_ge_two {J α : Type} (validate : J → Except String α)
    (t : Nat → TransportResult J) (msg : String)
    (h : callApiOnce validate (t 1) = .valueError msg) :
    2 ≤ (structured_completion validate t).attempts := by
  unfold structured_completion retryCall
  simp only [h]
  exact retryCall_attempts_ge (fun n => callApiOnce validate (t n)) 2 1

/-- A failing first attempt makes the first backoff wait the head of the wait
schedule. -/
theorem structured_first_wait {J α : Type} (validate : J → Except String α)
    (t : Nat → TransportResult J) (msg : String)
    (h : callApiOnce validate (t 1) = .valueError msg) :
    (structured_completion validate t).waits.head? = some (backoffWait 1) := by
  unfold structured_completion retryCall
  simp only [h]
  rfl

/-! ### Claim theorems -/

/-- C1: every FitEvaluation returned by the fit-evaluation stage satisfies
`is_fit = (fit_score >= 70)`: after the generation call returns,
`evaluate_fit` unconditionally recomputes the flag from the score, so even an
inconsistent model-produced flag is overwritten in the stage's output. -/
theorem C1_is_fit_recomputed (transport : Nat → TransportResult FitEvaluationJson)
    (cp : CandidateProfile) (jd : JobDescription) (fe : FitEvaluation)
    (h : evaluate_fit transport cp jd = .ok fe) :
    fe.is_fit = decide (70 ≤ fe.fit_score) := by
  unfold evaluate_fit at h
  cases hr : (structured_completion FitEvaluation.model_validate transport).result with
  | error e => rw [hr] at h; cases h
  | ok ev =>
    rw [hr] at h
    cases h
    simp

/-- C1 witness: a generated payload with fit_score 75 and is_fit false is
corrected — the stage output `correctedFit75` has its flag equal to
`fit_score >= 70`. -/
theorem C1_witness :
    correctedFit75.is_fit = decide (70 ≤ correctedFit75.fit_score) :=
  C1_is_fit_recomputed transportInconsistent sampleProfile sampleJob correctedFit75 (by rfl)

/-- C2 counterexample to the claim as stated: a generic transport error
(a non-ValueError exception from the OpenAI client) on the first attempt does
NOT propagate immediately as fatal — the outer except-clause in `_call_api`
wraps it as a ValueError, which is in the retry set, so the client makes a
second transport invocation and the call succeeds. -/
theorem C2_counterexample :
    structured_completion FitEvaluation.model_validate transportErrThenOk =
      { result := .ok fit80, attempts := 2, waits := [2] } := by
  rfl

/-- C2 amended: the retry predicate is `(ValueError, json.JSONDecodeError)`,
and `_call_api` converts every failure — generic transport/auth/service
errors included, wrapped as `ValueError("OpenAI API error: ...")` — into a
ValueError, so transport errors are retried under exactly the same policy as
malformed JSON and schema-validation failures rather than propagating
immediately as fatal. -/
theorem C2_transport_errors_retried {J α : Type} (validate : J → Except String α)
    (t : Nat → TransportResult J) (msg : String) (h : t 1 = .apiError msg) :
    callApiOnce validate (t 1) = .valueError ("OpenAI API error: " ++ msg)
    ∧ 2 ≤ (structured_completion validate t).attempts
    ∧ (structured_completion validate t).waits.head? = some (backoffWait 1) := by
  have hout : callApiOnce validate (t 1) = .valueError ("OpenAI API error: " ++ msg) := by
    rw [h]
    rfl
  exact ⟨hout, structured_attempts_ge_two validate t _ hout,
    structured_first_wait validate t _ hout⟩

/-- C2 witness for the amended statement, at the concrete transport failing
with a connection error on attempt 1. -/
theorem C2_witness :
    callApiOnce FitEvaluation.model_validate (transportErrThenOk 1) =
      .valueError ("OpenAI API error: " ++ "Connection error")
    ∧ 2 ≤ (structured_completion FitEvaluation.model_validate transportErrThenOk).attempts
    ∧ (structured_completion FitEvaluation.model_validate transportErrThenOk).waits.head? =
        some (backoffWait 1) :=
  C2_transport_errors_retried FitEvaluation.model_validate transportErrThenOk
    "Connection error" rfl

/-- C3: every structured_completion call makes at most 3 transport attempts;
the wait between attempts is min(10, 1 * 2^(attempt-1)) clamped to a 2-second
floor; malformed JSON on exactly the first two attempts followed by valid
schema-conforming JSON succeeds after exactly 3 transport invocations; and
when all 3 attempts raise recoverable errors, the final recoverable error's
message is the terminal failure handed to the caller. -/
theorem C3_retry_budget_and_backoff {J α : Type} (validate : J → Except String α)
    (t : Nat → TransportResult J) :
    (structured_completion validate t).attempts ≤ 3
    ∧ (∀ n : Nat, backoffWait n = Nat.max 2 (Nat.min 10 (1 * 2 ^ (n - 1))))
    ∧ (∀ (e1 e2 : String) (j : J) (v : α),
        t 1 = .response (.badJson e1) → t 2 = .response (.badJson e2) →
        t 3 = .response (.goodJson j) → validate j = .ok v →
        structured_completion validate t =
          { result := .ok v, attempts := 3, waits := [backoffWait 1, backoffWait 2] })
    ∧ (∀ (m1 m2 m3 : String),
        callApiOnce validate (t 1) = .valueError m1 →
        callApiOnce validate (t 2) = .valueError m2 →
        callApiOnce validate (t 3) = .valueError m3 →
        (structured_completion validate t).result = .error m3) := by
  refine ⟨?_, fun n => rfl, ?_, ?_⟩
  · exact retryCall_attempts_le (fun n => callApiOnce validate (t n)) 1 2
  · intro e1 e2 j v h1 h2 h3 hv
    unfold structured_completion
    unfold retryCall
    simp only [h1, callApiOnce]
    unfold retryCall
    simp only [h2, callApiOnce]
    unfold retryCall
    simp only [h3, callApiOnce, hv]
  · intro m1 m2 m3 h1 h2 h3
    unfold structured_completion
    unfold retryCall
    simp only [h1]
    unfold retryCall
    simp only [h2]
    unfold retryCall
    simp only [h3]

/-- C3 witness: the two-malformed-then-valid scenario succeeds with exactly 3
transport invocations and waits [2, 2]; the all-recoverable scenario ends in
the third attempt's error message. -/
theorem C3_witness :
    (structured_completion FitEvaluation.model_validate transportBadBadGood =
      { result := .ok fit80, attempts := 3, waits := [backoffWait 1, backoffWait 2] })
    ∧ (structured_completion FitEvaluation.model_validate transportAllBad).result =
        .error ("Failed to parse JSON response: " ++ "third failure") :=
  ⟨(C3_retry_budget_and_backoff FitEvaluation.model_validate transportBadBadGood).2.2.1
      "Expecting value" "Expecting value" goodJson80 fit80 rfl rfl rfl rfl,
   (C3_retry_budget_and_backoff FitEvaluation.model_validate transportAllBad).2.2.2
      ("Failed to parse JSON response: " ++ "early failure")
      ("Failed to parse JSON response: " ++ "early failure")
      ("Failed to parse JSON response: " ++ "third failure") rfl rfl rfl⟩

/-- C4: a FitEvaluation accepted by schema validation always has fit_score in
[0, 100], and the accepted score equals the raw payload's score (never
clamped); an out-of-range raw score makes the attempt fail with a recoverable
ValueError, and the call goes on to a further transport attempt. -/
theorem C4_fit_score_range (j : FitEvaluationJson) :
    (∀ fe : FitEvaluation, FitEvaluation.model_validate j = .ok fe →
        0 ≤ fe.fit_score ∧ fe.fit_score ≤ 100 ∧ fe.fit_score = j.fit_score)
    ∧ ((j.fit_score < 0 ∨ 100 < j.fit_score) →
        ∀ t : Nat → TransportResult FitEvaluationJson,
          t 1 = .response (.goodJson j) →
          (∃ msg, callApiOnce FitEvaluation.model_validate (t 1) = .valueError msg)
          ∧ 2 ≤ (structured_completion FitEvaluation.model_validate t).attempts) := by
  constructor
  · intro fe h
    unfold FitEvaluation.model_validate at h
    by_cases h0 : j.fit_score < 0
    · simp [h0] at h
    · by_cases h100 : 100 < j.fit_score
      · simp [h0, h100] at h
      · simp [h0, h100] at h
        subst h
        refine ⟨?_, ?_, rfl⟩
        · show (0 : Int) ≤ j.fit_score
          omega
        · show j.fit_score ≤ (100 : Int)
          omega
  · intro hrange t ht
    have hval : ∃ e, FitEvaluation.model_validate j = .error e := by
      unfold FitEvaluation.model_validate
      rcases hrange with h0 | h100
      · rw [if_pos h0]
        exact ⟨_, rfl⟩
      · rw [if_neg (by omega : ¬ j.fit_score < 0), if_pos h100]
        exact ⟨_, rfl⟩
    rcases hval with ⟨e, he⟩
    have hcall : callApiOnce FitEvaluation.model_validate (t 1) =
        .valueError ("Pydantic validation failed: " ++ e) := by
      rw [ht]
      simp only [callApiOnce, he]
    exact ⟨⟨_, hcall⟩,
      structured_attempts_ge_two FitEvaluation.model_validate t _ hcall⟩

/-- C4 witness: the accepted payload with score 80 is in range and unclamped;
the payload with score 150 fails validation recoverably and the call reaches
a second attempt. -/
theorem C4_witness :
    (0 ≤ fit80.fit_score ∧ fit80.fit_score ≤ 100 ∧ fit80.fit_score = goodJson80.fit_score)
    ∧ ((∃ msg, callApiOnce FitEvaluation.model_validate (transportRange 1) = .valueError msg)
       ∧ 2 ≤ (structured_completion FitEvaluation.model_validate transportRange).attempts) :=
  ⟨(C4_fit_score_range goodJson80).1 fit80 rfl,
   (C4_fit_score_range outOfRangeJson).2 (Or.inr (by decide)) transportRange rfl⟩

/-- C5: empty `job_description_text`, or both resume inputs absent by Python
truthiness, make `run_evaluation` raise its precondition error immediately:
the error is returned with an empty stage trace, so no pipeline stage
executes and no retry takes place. -/
theorem C5_precondition_errors (o : Oracles) (pdf : Option PdfBytes)
    (text : Option String) (job : String) :
    run_evaluation o pdf text "" = (.error "job_description_text is required", [])
    ∧ (job ≠ "" → truthyBytes pdf = false → truthyStr text = false →
        run_evaluation o pdf text job =
          (.error "Either resume_pdf_bytes or resume_text must be provided", [])) := by
  constructor
  · rfl
  · intro hj hb ht
    unfold run_evaluation
    simp [hj, hb, ht]

/-- C5 witness: at concrete inputs, the empty-job run and the
both-resume-inputs-absent run each fail with the respective precondition
error and an empty trace. -/
theorem C5_witness :
    run_evaluation sampleOracles (some [37, 80]) (some "text") "" =
      (.error "job_description_text is required", [])
    ∧ run_evaluation sampleOracles none none "Job text" =
      (.error "Either resume_pdf_bytes or resume_text must be provided", []) :=
  ⟨(C5_precondition_errors sampleOracles (some [37, 80]) (some "text") "Job text").1,
   (C5_precondition_errors sampleOracles none none "Job text").2
     (by decide) rfl rfl⟩

/-- C6: a run started with non-empty PDF bytes and no resume text, whose PDF
opens but yields zero extractable text, fails in the parse stage: the trace
contains only parse_resume, so the profile, job and fit stages — and with
them every generation call — are never invoked. -/
theorem C6_no_text_fails_before_generation (o : Oracles) (bytes : PdfBytes)
    (job : String) (pages : List PageOutcome) (hb : bytes ≠ []) (hj : job ≠ "")
    (hr : o.readPdf bytes = .ok pages) (hz : collectPageTexts pages = []) :
    run_evaluation o (some bytes) none job =
      (.error "Unexpected error parsing PDF: No text could be extracted from the PDF",
       [Stage.parse_resume]) := by
  have hbb : truthyBytes (some bytes) = true := by
    simp [truthyBytes, hb]
  have hnode : parse_resume_node o.readPdf
      { resume_pdf_bytes := some bytes, resume_text := none,
        job_description_text := job, candidate_profile := none,
        job_description := none, evaluation := none } =
      .error "Unexpected error parsing PDF: No text could be extracted from the PDF" := by
    unfold parse_resume_node
    simp only [truthyStr, hbb, Bool.not_true, Bool.false_eq_true, if_false,
      Bool.not_eq_true]
    simp only [extract_text_from_pdf, hr, hz]
    rfl
  unfold run_evaluation
  simp only [hj, if_neg, hbb]
  simp only [pipelineNodes, runSeq, hnode]
  simp [hj]

/-- C6 witness: at a concrete run whose PDF pages are one unreadable page and
one empty page, the run fails with only the parse stage in the trace. -/
theorem C6_witness :
    run_evaluation sampleOracles (some [37, 80, 68, 70]) none "Job text" =
      (.error "Unexpected error parsing PDF: No text could be extracted from the PDF",
       [Stage.parse_resume]) :=
  C6_no_text_fails_before_generation sampleOracles [37, 80, 68, 70] "Job text"
    emptyPages (by decide) (by decide) rfl rfl

/-- C7: on a readable document the texts the extractor keeps are exactly the
in-page-order yields of the pages that neither failed nor returned empty
text; the extractor fails iff zero pages yielded text, and otherwise returns
the kept texts joined with a blank-line separator. -/
theorem C7_page_skipping_and_join (pages : List PageOutcome) :
    collectPageTexts pages = pages.filterMap pageYield
    ∧ ((∃ e, extract_text_from_pdf (.ok pages) = .error e) ↔
        collectPageTexts pages = [])
    ∧ (collectPageTexts pages ≠ [] →
        extract_text_from_pdf (.ok pages) =
          .ok (String.intercalate "\n\n" (collectPageTexts pages))) := by
  refine ⟨?_, ?_, ?_⟩
  · induction pages with
    | nil => rfl
    | cons p rest ih =>
      cases p with
      | extractFailed err => simp [collectPageTexts, pageYield, ih]
      | extracted t =>
        by_cases ht : t = ""
        · simp [collectPageTexts, pageYield, ht, ih]
        · simp [collectPageTexts, pageYield, ht, ih]
  · unfold extract_text_from_pdf
    by_cases hz : (collectPageTexts pages).isEmpty
    · simp only [hz, if_true]
      constructor
      · intro _
        exact List.isEmpty_iff.mp hz
      · intro _
        exact ⟨_, rfl⟩
    · simp only [hz, if_false]
      constructor
      · rintro ⟨e, he⟩
        cases he
      · intro h
        exact absurd (by simp [h]) hz
  · intro h
    unfold extract_text_from_pdf
    have hz : (collectPageTexts pages).isEmpty = false := by
      simp [List.isEmpty_iff, h]
    simp [hz]

/-- C7 witness: with one text page, one unreadable page, one empty page and
another text page, the kept texts are the two text pages in order and the
extractor returns them joined by a blank line. -/
theorem C7_witness :
    collectPageTexts samplePages = samplePages.filterMap pageYield
    ∧ extract_text_from_pdf (.ok samplePages) =
        .ok (String.intercalate "\n\n" (collectPageTexts samplePages)) :=
  ⟨(C7_page_skipping_and_join samplePages).1,
   (C7_page_skipping_and_join samplePages).2.2 (by decide)⟩

/-- C8: when resume_text is already truthy, parse_resume_node returns the
state unchanged — every field identical — for every PDF-reader oracle, so its
result does not depend on the extractor and the extractor is never invoked. -/
theorem C8_passthrough (readPdf : PdfBytes → Except String (List PageOutcome))
    (state : EvaluationState) (h : truthyStr state.resume_text = true) :
    parse_resume_node readPdf state = .ok state := by
  unfold parse_resume_node
  simp [h]

/-- C8 witness: a state that already carries resume text passes through the
resolve-text step untouched even under a reader oracle that would fail. -/
theorem C8_witness :
    parse_resume_node readPdfUnused sampleStateWithText = .ok sampleStateWithText :=
  C8_passthrough readPdfUnused sampleStateWithText (by decide)

/-- C9: presence of resume_text is decided by string truthiness: a non-empty
resume_text takes precedence (pass-through for every reader oracle, so the
PDF is never parsed even when bytes are supplied); an empty-string
resume_text behaves exactly as an absent one, falling through to PDF
extraction; and when bytes are also absent the missing-input error is
raised. -/
theorem C9_truthiness (readPdf : PdfBytes → Except String (List PageOutcome))
    (state : EvaluationState) :
    (∀ t : String, state.resume_text = some t → t ≠ "" →
        parse_resume_node readPdf state = .ok state)
    ∧ (state.resume_text = some "" →
        parse_resume_node readPdf state =
          parse_resume_node readPdf { state with resume_text := none })
    ∧ (state.resume_text = some "" → state.resume_pdf_bytes = none →
        parse_resume_node readPdf state =
          .error "Either resume_text or resume_pdf_bytes must be provided") := by
  refine ⟨?_, ?_, ?_⟩
  · intro t hsome hne
    unfold parse_resume_node
    simp [truthyStr, hsome, hne]
  · intro hsome
    unfold parse_resume_node
    simp [truthyStr, hsome]
  · intro hsome hbytes
    unfold parse_resume_node
    simp [truthyStr, truthyBytes, hsome, hbytes]

/-- C9 witness: a non-empty resume text passes through with bytes present; an
empty-string resume text behaves exactly as an absent one; and with empty
text and no bytes the missing-input error is raised. -/
theorem C9_witness :
    parse_resume_node readPdfUnused sampleStateWithText = .ok sampleStateWithText
    ∧ parse_resume_node sampleOracles.readPdf sampleStateEmptyText =
        parse_resume_node sampleOracles.readPdf
          { sampleStateEmptyText with resume_text := none }
    ∧ parse_resume_node readPdfUnused sampleStateNoInputs =
        .error "Either resume_text or resume_pdf_bytes must be provided" :=
  ⟨(C9_truthiness readPdfUnused sampleStateWithText).1 "Ada resume" rfl (by decide),
   (C9_truthiness sampleOracles.readPdf sampleStateEmptyText).2.1 rfl,
   (C9_truthiness readPdfUnused sampleStateNoInputs).2.2 rfl rfl⟩

/-- C10: falsy transport content makes `_call_api` raise the recoverable
ValueError "Empty response from OpenAI API", which is subject to the same
retry policy as malformed JSON: empty content on attempt 1 followed by valid
schema-conforming JSON on attempt 2 yields success after 2 transport
invocations with one backoff wait, not an immediate fatal failure. -/
theorem C10_empty_response_retried {J α : Type} (validate : J → Except String α)
    (t : Nat → TransportResult J) :
    callApiOnce validate (TransportResult.response ContentModel.emptyContent) =
      .valueError "Empty response from OpenAI API"
    ∧ (∀ (j : J) (v : α), t 1 = .response .emptyContent →
        t 2 = .response (.goodJson j) → validate j = .ok v →
        structured_completion validate t =
          { result := .ok v, attempts := 2, waits := [backoffWait 1] }) := by
  refine ⟨rfl, ?_⟩
  intro j v h1 h2 hv
  unfold structured_completion
  unfold retryCall
  simp only [h1, callApiOnce]
  unfold retryCall
  simp only [h2, callApiOnce, hv]

/-- C10 witness: the concrete empty-then-valid transport succeeds after 2
attempts with a single backoff wait. -/
theorem C10_witness :
    structured_completion FitEvaluation.model_validate transportEmptyThenOk =
      { result := .ok fit80, attempts := 2, waits := [backoffWait 1] } :=
  (C10_empty_response_retried FitEvaluation.model_validate transportEmptyThenOk).2
    goodJson80 fit80 rfl rfl rfl

end ResumeEvaluator
